import Mathlib

/-!
Verification of the authentication/session core of the full-stack template:
JWT-style token issue/decode, the refresh-token ledger, the login
rate-limiter, and the session endpoints (register, login, refresh, logout,
profile update, password change, account deletion).

The data model and the operations are shallow embeddings of
`src/app/db/models/*.py`, `src/app/core/rate_limit.py`,
`src/app/api/dependencies.py`, `src/app/api/routes/auth.py` and
`src/app/api/routes/users.py`.  Timestamps are integers (seconds).
The credential hasher and token codec live in `app/core/security.py`,
which is absent from the source tree; those two components are modelled
from the specification (sections 4.1 and 4.2).
-/

namespace FullStack

/-- Modelled from the spec: the Credential Hasher of `app/core/security.py`
(absent from the source tree).  A digest records the hashed-from input
abstractly (one-way-ness is not needed by any claim) together with the
random salt, so that two hashes of the same input with different salts are
distinct digests, while verification by re-hash-and-compare is exact. -/
structure PasswordDigest where
  value : String
  salt : Nat
deriving DecidableEq, Repr

/-- Modelled from the spec: `get_password_hash` produces a salted one-way
hash; the salt is passed explicitly (the code draws it randomly). -/
def get_password_hash (password : String) (salt : Nat) : PasswordDigest :=
  ⟨password, salt⟩

/-- Modelled from the spec: `verify_password` compares a candidate against
a digest; an empty password always fails. -/
def verify_password (password : String) (digest : PasswordDigest) : Bool :=
  password != "" && password == digest.value

/-- Claims carried by a signed token: subject, token type
("access" or "refresh"), issued-at and expiry. -/
structure TokenClaims where
  sub : String
  ty : String
  iat : Int
  exp : Int
deriving DecidableEq, Repr

/-- Modelled from the spec: a token string is either a well-formed token
signed with some secret, or an arbitrary malformed string. -/
inductive Token where
  | signed (claims : TokenClaims) (secret : Nat)
  | malformed (raw : String)
deriving DecidableEq, Repr

/-- The process-wide signing secret (`settings.SECRET_KEY`); its concrete
value is irrelevant, only equality with a token's secret matters. -/
def SECRET_KEY : Nat := 0

/-- Default access-token lifetime in minutes
(`Settings.ACCESS_TOKEN_EXPIRE_MINUTES`). -/
def ACCESS_TOKEN_EXPIRE_MINUTES : Int := 15

/-- Default refresh-token lifetime in days
(`Settings.REFRESH_TOKEN_EXPIRE_DAYS`). -/
def REFRESH_TOKEN_EXPIRE_DAYS : Int := 30

/-- Default nominal per-minute login attempt limit
(`Settings.LOGIN_RATE_LIMIT_PER_MINUTE`). -/
def LOGIN_RATE_LIMIT_PER_MINUTE : Nat := 5

/-- Modelled from the spec: `decode_token` of `app/core/security.py`
(absent from the source tree).  Decoding fails on a malformed string, on a
signature mismatch, and once the current time exceeds the expiry. -/
def decode_token (secret : Nat) (now : Int) : Token → Option TokenClaims
  | .signed c s => if s == secret && decide (now ≤ c.exp) then some c else none
  | .malformed _ => none

/-- Modelled from the spec: `create_access_token` signs
`{sub, type=access, iat=now, exp=now+ttl}` with the process secret. -/
def create_access_token (subject : String) (now : Int) : Token :=
  .signed ⟨subject, "access", now, now + ACCESS_TOKEN_EXPIRE_MINUTES * 60⟩ SECRET_KEY

/-- Modelled from the spec: `create_refresh_token` signs
`{sub, type=refresh, iat=now, exp=now+ttl}` with the process secret. -/
def create_refresh_token (subject : String) (now : Int) : Token :=
  .signed ⟨subject, "refresh", now, now + REFRESH_TOKEN_EXPIRE_DAYS * 86400⟩ SECRET_KEY

/-- A digest of a raw refresh-token string as stored in the ledger
(the code reuses `get_password_hash` on the token string). -/
structure TokenDigest where
  value : Token
  salt : Nat
deriving DecidableEq, Repr

/-- Modelled from the spec: hashing a raw token for ledger storage. -/
def hash_token (t : Token) (salt : Nat) : TokenDigest := ⟨t, salt⟩

/-- Modelled from the spec: verifying a raw token against a stored digest
by re-hash-and-compare. -/
def verify_token (t : Token) (d : TokenDigest) : Bool := t == d.value

/-- A row of the `users` table (`app/db/models/user.py`). -/
structure UserRec where
  id : String
  email : String
  username : String
  hashed_password : PasswordDigest
  is_active : Bool
  is_verified : Bool
  is_superuser : Bool
  last_login_at : Option Int
  updated_at : Int
  deleted_at : Option Int
deriving DecidableEq, Repr

/-- A row of the `refresh_tokens` table
(`app/db/models/refresh_token.py`). -/
structure RefreshTokenRec where
  id : Nat
  user_id : String
  token_hash : TokenDigest
  expires_at : Int
  revoked_at : Option Int
deriving DecidableEq, Repr

/-- `RefreshToken.is_expired`: `datetime.utcnow() > self.expires_at`. -/
def RefreshTokenRec.is_expired (rt : RefreshTokenRec) (now : Int) : Bool :=
  decide (now > rt.expires_at)

/-- `RefreshToken.is_revoked`: `self.revoked_at is not None`. -/
def RefreshTokenRec.is_revoked (rt : RefreshTokenRec) : Bool :=
  rt.revoked_at.isSome

/-- `RefreshToken.is_valid`: `not self.is_expired and not self.is_revoked`. -/
def RefreshTokenRec.is_valid (rt : RefreshTokenRec) (now : Int) : Bool :=
  !(rt.is_expired now) && !(rt.is_revoked)

/-- A row of the `login_attempts` table
(`app/db/models/login_attempt.py`). -/
structure LoginAttemptRec where
  email : String
  user_id : Option String
  ip_address : String
  user_agent : Option String
  success : Bool
  attempted_at : Int
deriving DecidableEq, Repr

/-- The relational store: the three tables the session core touches. -/
structure DB where
  users : List UserRec
  refresh_tokens : List RefreshTokenRec
  login_attempts : List LoginAttemptRec
deriving DecidableEq, Repr

/-- `LoginRateLimiter.window_minutes` (default 15). -/
def window_minutes : Int := 15

/-- `LoginRateLimiter.max_attempts`
(default `LOGIN_RATE_LIMIT_PER_MINUTE * 3`). -/
def max_attempts : Nat := LOGIN_RATE_LIMIT_PER_MINUTE * 3

/-- The filter of `check_login_rate_limit`: failed attempts for this
(email, ip) pair inside the trailing window. -/
def is_failed_in_window (email ip : String) (now : Int)
    (a : LoginAttemptRec) : Bool :=
  a.email == email && a.ip_address == ip &&
    decide (now - window_minutes * 60 ≤ a.attempted_at) && a.success == false

/-- The rows counted by `check_login_rate_limit`. -/
def failed_attempts_in_window (db : DB) (email ip : String) (now : Int) :
    List LoginAttemptRec :=
  db.login_attempts.filter (is_failed_in_window email ip now)

/-- The `order_by(attempted_at).limit(1)` query of
`check_login_rate_limit`: the smallest `attempted_at` of the rows. -/
def oldest_attempt_time : List LoginAttemptRec → Option Int
  | [] => none
  | a :: rest =>
    match oldest_attempt_time rest with
    | none => some a.attempted_at
    | some t => some (min a.attempted_at t)

/-- `LoginRateLimiter.check_login_rate_limit`
(`app/core/rate_limit.py`): returns (is_allowed, remaining, retry_after). -/
def check_login_rate_limit (db : DB) (email ip : String) (now : Int) :
    Bool × Nat × Option Int :=
  let failed := failed_attempts_in_window db email ip now
  if failed.length ≥ max_attempts then
    match oldest_attempt_time failed with
    | some t => (false, 0, some (t + window_minutes * 60))
    | none => (false, 0, none)
  else
    (true, max_attempts - failed.length, none)

/-- `LoginRateLimiter.record_login_attempt`: appends one immutable
`LoginAttempt` row. -/
def record_login_attempt (db : DB) (email ip : String) (success : Bool)
    (user_id : Option String) (user_agent : Option String) (now : Int) : DB :=
  { db with login_attempts :=
      ⟨email, user_id, ip, user_agent, success, now⟩ :: db.login_attempts }

/-- The user lookup of `login` (`routes/auth.py`): by email, among
non-deleted users. -/
def find_login_user (db : DB) (email : String) : Option UserRec :=
  db.users.find? (fun u => u.email == email && u.deleted_at.isNone)

/-- What a successful login returns: the token pair and the user row. -/
structure LoginSuccess where
  access_token : Token
  refresh_token : Token
  user : UserRec
deriving DecidableEq, Repr

/-- The `login` endpoint (`routes/auth.py`).  `salt` is the random salt the
hasher would draw for the stored refresh-token hash and `rid` the fresh row
id; both are passed explicitly.  Returns the updated store and the
outcome. -/
def login (db : DB) (email password ip : String) (user_agent : Option String)
    (now : Int) (salt rid : Nat) : DB × Except String LoginSuccess :=
  if !(check_login_rate_limit db email ip now).1 then
    (record_login_attempt db email ip false none user_agent now,
     .error "RATE_LIMIT_EXCEEDED")
  else
    match find_login_user db email with
    | none =>
        (record_login_attempt db email ip false none user_agent now,
         .error "INVALID_CREDENTIALS")
    | some u =>
        if !(verify_password password u.hashed_password) then
          (record_login_attempt db email ip false none user_agent now,
           .error "INVALID_CREDENTIALS")
        else if !u.is_active then
          (db, .error "USER_INACTIVE")
        else
          let db1 := record_login_attempt db email ip true (some u.id) user_agent now
          let access := create_access_token u.id now
          let refreshTok := create_refresh_token u.id now
          let newRec : RefreshTokenRec :=
            ⟨rid, u.id, hash_token refreshTok salt,
             now + REFRESH_TOKEN_EXPIRE_DAYS * 86400, none⟩
          let db2 : DB :=
            { db1 with
              users := db1.users.map (fun w =>
                if w.id == u.id then { w with last_login_at := some now } else w),
              refresh_tokens := newRec :: db1.refresh_tokens }
          (db2, .ok ⟨access, refreshTok, { u with last_login_at := some now }⟩)

/-- The ledger rows the `refresh` endpoint scans: this user's rows with
`revoked_at` null. -/
def user_tokens_unrevoked (db : DB) (uid : String) : List RefreshTokenRec :=
  db.refresh_tokens.filter (fun rt => rt.user_id == uid && rt.revoked_at.isNone)

/-- The `refresh` endpoint (`routes/auth.py`): decode, check type and
subject, scan the user's non-revoked ledger rows for a hash match (the
code breaks at the first match), check validity, load the user, issue a
new access token.  Does not mutate the store. -/
def refresh_endpoint (db : DB) (raw : Token) (now : Int) : Except String Token :=
  match decode_token SECRET_KEY now raw with
  | none => .error "INVALID_REFRESH_TOKEN"
  | some c =>
    if c.ty != "refresh" then .error "INVALID_REFRESH_TOKEN"
    else if c.sub == "" then .error "INVALID_REFRESH_TOKEN"
    else
      let token_valid :=
        match (user_tokens_unrevoked db c.sub).find?
            (fun rt => verify_token raw rt.token_hash) with
        | some rt => rt.is_valid now
        | none => false
      if !token_valid then .error "INVALID_REFRESH_TOKEN"
      else
        match db.users.find? (fun u => u.id == c.sub && u.deleted_at.isNone) with
        | none => .error "USER_NOT_FOUND"
        | some u =>
          if !u.is_active then .error "USER_NOT_FOUND"
          else .ok (create_access_token u.id now)

/-- `get_current_user_token` (`api/dependencies.py`): decode the bearer
token, require type "access". -/
def get_current_user_token (tok : Token) (now : Int) : Except String TokenClaims :=
  match decode_token SECRET_KEY now tok with
  | none => .error "INVALID_TOKEN"
  | some c => if c.ty != "access" then .error "INVALID_TOKEN_TYPE" else .ok c

/-- `get_user_by_id` (`api/dependencies.py`): lookup among non-deleted
users.  The short-TTL read-through cache around it is a performance
artifact the spec declares ignorable; the store query is modelled. -/
def get_user_by_id (db : DB) (uid : String) : Option UserRec :=
  db.users.find? (fun u => u.id == uid && u.deleted_at.isNone)

/-- `get_current_user` (`api/dependencies.py`). -/
def get_current_user (db : DB) (tok : Token) (now : Int) : Except String UserRec :=
  match get_current_user_token tok now with
  | .error e => .error e
  | .ok c =>
    match get_user_by_id db c.sub with
    | none => .error "USER_NOT_FOUND"
    | some u => if !u.is_active then .error "USER_INACTIVE" else .ok u

/-- `get_current_active_user` (`api/dependencies.py`). -/
def get_current_active_user (db : DB) (tok : Token) (now : Int) :
    Except String UserRec :=
  match get_current_user db tok now with
  | .error e => .error e
  | .ok u => if !u.is_active then .error "USER_INACTIVE" else .ok u

/-- `get_current_verified_user` (`api/dependencies.py`). -/
def get_current_verified_user (db : DB) (tok : Token) (now : Int) :
    Except String UserRec :=
  match get_current_active_user db tok now with
  | .error e => .error e
  | .ok u => if !u.is_verified then .error "EMAIL_NOT_VERIFIED" else .ok u

/-- The revocation loop shared by `logout` and `delete_current_user`: set
`revoked_at = now` on this user's rows whose `revoked_at` is null. -/
def revoke_user_tokens (db : DB) (uid : String) (now : Int) : DB :=
  { db with refresh_tokens := db.refresh_tokens.map (fun rt =>
      if rt.user_id == uid && rt.revoked_at.isNone then
        { rt with revoked_at := some now }
      else rt) }

/-- The `logout` endpoint (`routes/auth.py`): requires a plain
authenticated user and revokes all their non-revoked refresh tokens. -/
def logout (db : DB) (tok : Token) (now : Int) : DB × Except String Unit :=
  match get_current_user db tok now with
  | .error e => (db, .error e)
  | .ok u => (revoke_user_tokens db u.id now, .ok ())

/-- The `delete_current_user` endpoint (`routes/users.py`): requires a
verified user; soft-deletes the row and revokes all refresh tokens. -/
def delete_current_user (db : DB) (tok : Token) (now : Int) :
    DB × Except String Unit :=
  match get_current_verified_user db tok now with
  | .error e => (db, .error e)
  | .ok u =>
    let db1 : DB :=
      { db with users := db.users.map (fun w =>
          if w.id == u.id then { w with deleted_at := some now, is_active := false }
          else w) }
    (revoke_user_tokens db1 u.id now, .ok ())

/-- The `change_password` endpoint (`routes/users.py`): requires a
verified user; rehashes and stores the new password, touching nothing
else. -/
def change_password (db : DB) (tok : Token) (current new : String)
    (now : Int) (salt : Nat) : DB × Except String Unit :=
  match get_current_verified_user db tok now with
  | .error e => (db, .error e)
  | .ok u =>
    if !(verify_password current u.hashed_password) then
      (db, .error "INVALID_PASSWORD")
    else if current == new then
      (db, .error "SAME_PASSWORD")
    else
      ({ db with users := db.users.map (fun w =>
          if w.id == u.id then
            { w with hashed_password := get_password_hash new salt,
                     updated_at := now }
          else w) },
       .ok ())

/-- The body of a `PUT /users/me` request (`UserUpdate` in
`api/schemas.py`): each field is either absent or supplied. -/
structure UserUpdate where
  email : Option String
  username : Option String
deriving DecidableEq, Repr

/-- The `update_current_user` endpoint (`routes/users.py`): requires a
verified user; on an email change checks uniqueness and clears
`is_verified`; on a username change checks uniqueness; then applies the
supplied fields. -/
def update_current_user (db : DB) (tok : Token) (upd : UserUpdate)
    (now : Int) : DB × Except String UserRec :=
  match get_current_verified_user db tok now with
  | .error e => (db, .error e)
  | .ok u =>
    if upd.email.isNone && upd.username.isNone then (db, .ok u)
    else
      let emailChanged :=
        match upd.email with
        | some e => e != u.email
        | none => false
      let emailConflict :=
        match upd.email with
        | some e => e != u.email && db.users.any (fun w => w.email == e && w.id != u.id)
        | none => false
      let usernameConflict :=
        match upd.username with
        | some s => s != u.username && db.users.any (fun w => w.username == s && w.id != u.id)
        | none => false
      if emailConflict then (db, .error "EMAIL_EXISTS")
      else if usernameConflict then (db, .error "USERNAME_EXISTS")
      else
        let u2 : UserRec :=
          { u with
            is_verified := if emailChanged then false else u.is_verified,
            email := upd.email.getD u.email,
            username := upd.username.getD u.username,
            updated_at := now }
        ({ db with users := db.users.map (fun w => if w.id == u.id then u2 else w) },
         .ok u2)

/-- The `register` endpoint (`routes/auth.py`): uniqueness checks, then a
fresh active, unverified user row.  `uid` is the fresh row id. -/
def register (db : DB) (email username password : String) (now : Int)
    (salt : Nat) (uid : String) : DB × Except String UserRec :=
  if db.users.any (fun u => u.email == email) then
    (db, .error "EMAIL_EXISTS")
  else if db.users.any (fun u => u.username == username) then
    (db, .error "USERNAME_EXISTS")
  else
    let u : UserRec :=
      ⟨uid, email, username, get_password_hash password salt,
       true, false, false, none, now, none⟩
    ({ db with users := db.users ++ [u] }, .ok u)

/-- One store-mutating operation of the session core; the parameters are
the request inputs plus the fresh values (salts, row ids) the handler
would draw. -/
inductive Op where
  | opLogin (email password ip : String) (user_agent : Option String)
      (now : Int) (salt rid : Nat)
  | opLogout (tok : Token) (now : Int)
  | opDelete (tok : Token) (now : Int)
  | opChangePassword (tok : Token) (current new : String) (now : Int) (salt : Nat)
  | opUpdate (tok : Token) (upd : UserUpdate) (now : Int)
  | opRegister (email username password : String) (now : Int) (salt : Nat)
      (uid : String)
deriving DecidableEq, Repr

/-- The store after one operation (the `refresh` endpoint does not mutate
the store and so is not listed). -/
def applyOp (db : DB) : Op → DB
  | .opLogin e p ip ua now salt rid => (login db e p ip ua now salt rid).1
  | .opLogout tok now => (logout db tok now).1
  | .opDelete tok now => (delete_current_user db tok now).1
  | .opChangePassword tok c n now salt => (change_password db tok c n now salt).1
  | .opUpdate tok upd now => (update_current_user db tok upd now).1
  | .opRegister e un p now salt uid => (register db e un p now salt uid).1

/-- The store after a sequence of operations. -/
def applyOps (db : DB) : List Op → DB
  | [] => db
  | op :: ops => applyOps (applyOp db op) ops

/-- Every ledger row whose stored hash the raw token `raw` verifies
against is revoked. -/
def MatchRevoked (raw : Token) (db : DB) : Prop :=
  ∀ rt ∈ db.refresh_tokens,
    verify_token raw rt.token_hash = true → rt.revoked_at.isSome = true

instance (raw : Token) (db : DB) : Decidable (MatchRevoked raw db) := by
  unfold MatchRevoked; exact inferInstance

/-- Along the trace, no step adds a ledger row whose stored hash the raw
token `raw` verifies against (logins issue fresh raw tokens). -/
def no_matching_issue (raw : Token) : DB → List Op → Bool
  | _, [] => true
  | db, op :: ops =>
    ((applyOp db op).refresh_tokens.all (fun rt =>
        decide (rt ∈ db.refresh_tokens) || !(verify_token raw rt.token_hash)))
      && no_matching_issue raw (applyOp db op) ops

/-! Concrete fixtures used to evaluate the theorems on closed inputs. -/

/-- An active, verified user. -/
def aliceUser : UserRec :=
  ⟨"u1", "a@x.com", "alice", ⟨"Secret12", 0⟩, true, true, false, none, 0, none⟩

/-- An active user whose email is not verified. -/
def bobUnverified : UserRec :=
  ⟨"u2", "b@x.com", "bob", ⟨"Secret12", 1⟩, true, false, false, none, 0, none⟩

/-- A second active, verified user with a distinct email. -/
def carolUser : UserRec :=
  ⟨"u3", "c@x.com", "carol", ⟨"Secret12", 2⟩, true, true, false, none, 0, none⟩

/-- An access token for `aliceUser`, issued at time 0. -/
def accessTok1 : Token := create_access_token "u1" 0

/-- An access token for `bobUnverified`, issued at time 0. -/
def accessTok2 : Token := create_access_token "u2" 0

/-- A raw refresh token for `aliceUser`, issued at time 0. -/
def rawTok1 : Token := create_refresh_token "u1" 0

/-- A ledger row for `rawTok1` that was revoked at time 50. -/
def revokedRec1 : RefreshTokenRec := ⟨0, "u1", hash_token rawTok1 0, 2592000, some 50⟩

/-- Store for the revocation trace: one user, one revoked ledger row. -/
def c1db : DB := ⟨[aliceUser], [revokedRec1], []⟩

/-- Trace applied after the revocation: a logout at time 100. -/
def c1ops : List Op := [.opLogout accessTok1 100]

/-- Fifteen failed attempts for one (email, ip) pair at times 100..114. -/
def failBurst : List LoginAttemptRec :=
  (List.range 15).map (fun i => ⟨"b@x.com", none, "1.2.3.4", none, false, 100 + (i : Int)⟩)

/-- Store whose attempt log is at the rate-limit threshold. -/
def c2dbDeny : DB := ⟨[], [], failBurst⟩

/-- Store with a single failed attempt for the pair. -/
def c2dbAllow : DB := ⟨[], [], [⟨"b@x.com", none, "1.2.3.4", none, false, 100⟩]⟩

/-- Store with no users at all. -/
def c4dbA : DB := ⟨[], [], []⟩

/-- Store with only `aliceUser`. -/
def c4dbB : DB := ⟨[aliceUser], [], []⟩

/-- A ledger row for `rawTok1`, valid until time 2592000, not revoked. -/
def liveRec1 : RefreshTokenRec := ⟨1, "u1", hash_token rawTok1 3, 2592000, none⟩

/-- Store for the password-change frame condition: `aliceUser` with a live
refresh token. -/
def c6db : DB := ⟨[aliceUser], [liveRec1], []⟩

/-- Store containing only the unverified user. -/
def c7db : DB := ⟨[bobUnverified], [], []⟩

/-- A ledger row whose `expires_at` equals the probe time used against it. -/
def c5rt : RefreshTokenRec := ⟨0, "u1", hash_token rawTok1 0, 100, none⟩

/-- Store with `aliceUser`, `carolUser` and a live token for alice. -/
def c9db : DB := ⟨[aliceUser, carolUser], [⟨2, "u1", hash_token rawTok1 4, 2592000, none⟩], []⟩

/-- Store with only `aliceUser`, for the profile-update claims. -/
def c10db : DB := ⟨[aliceUser], [], []⟩

/-- A profile update that changes the email. -/
def c10updEmail : UserUpdate := ⟨some "new@x.com", none⟩

/-- A profile update that changes only the username. -/
def c10updName : UserUpdate := ⟨none, some "alice2"⟩

/-- The user row after `c10updEmail` is applied to `aliceUser` at 100. -/
def c10afterEmail : UserRec :=
  ⟨"u1", "new@x.com", "alice", ⟨"Secret12", 0⟩, true, false, false, none, 100, none⟩

/-- The user row after `c10updName` is applied to `aliceUser` at 100. -/
def c10afterName : UserRec :=
  ⟨"u1", "a@x.com", "alice2", ⟨"Secret12", 0⟩, true, true, false, none, 100, none⟩

/-! Helper lemmas. -/

/-- A user delivered by `get_current_user` is active. -/
theorem get_current_user_active (db : DB) (tok : Token) (now : Int) (u : UserRec)
    (h : get_current_user db tok now = .ok u) : u.is_active = true := by
  cases hdec : get_current_user_token tok now with
  | error e => simp [get_current_user, hdec] at h
  | ok c =>
    cases hfind : get_user_by_id db c.sub with
    | none => simp [get_current_user, hdec, hfind] at h
    | some w =>
      simp [get_current_user, hdec, hfind] at h
      cases hw : w.is_active with
      | false => simp [hw] at h
      | true => simp [hw] at h; subst h; exact hw

/-- `get_current_verified_user` reduces through the `get_current_user`
result: on an active user it only adds the verification gate. -/
theorem get_current_verified_user_eq (db : DB) (tok : Token) (now : Int) (u : UserRec)
    (h : get_current_user db tok now = .ok u) :
    get_current_verified_user db tok now =
      (if u.is_verified then .ok u else .error "EMAIL_NOT_VERIFIED") := by
  have hact := get_current_user_active db tok now u h
  cases hv : u.is_verified <;>
    simp [get_current_verified_user, get_current_active_user, h, hact, hv]

/-! C5 — validity boundary of a refresh-token record. -/

/-- C5 counterexample: a record whose `expires_at` equals the current time
and whose `revoked_at` is null is reported valid by the code, refuting the
claimed strict `now < expires_at` bound. -/
theorem is_valid_at_exact_expiry_counterexample :
    c5rt.is_valid 100 = true ∧ c5rt.revoked_at = none ∧ ¬((100 : Int) < c5rt.expires_at) := by
  refine ⟨rfl, rfl, by decide⟩

/-- C5 (amended): for every refresh-token record and time `now`,
`is_valid` holds iff `revoked_at` is null and `now ≤ expires_at`; in
particular a record whose `expires_at` equals the current time is still
valid. -/
theorem is_valid_iff_unrevoked_and_not_past_expiry (rt : RefreshTokenRec) (now : Int) :
    rt.is_valid now = (rt.revoked_at.isNone && decide (now ≤ rt.expires_at)) := by
  unfold RefreshTokenRec.is_valid RefreshTokenRec.is_expired RefreshTokenRec.is_revoked
  cases rt.revoked_at with
  | none =>
    simp only [Option.isSome_none, Option.isNone_none, Bool.not_false,
      Bool.and_true, Bool.true_and]
    rw [← decide_not]
    exact decide_eq_decide.mpr (by omega)
  | some v => simp

/-! C4 — login failure indistinguishability. -/

/-- C4: when the rate limit allows the attempt, a login against an absent
identifier and a login with a wrong password for an existing non-deleted
user produce the identical store transition (one appended failed attempt,
with no user id) and the identical error `INVALID_CREDENTIALS`. -/
theorem login_wrong_password_and_no_user_indistinguishable
    (db : DB) (email password ip : String) (ua : Option String)
    (now : Int) (salt rid : Nat)
    (hallow : (check_login_rate_limit db email ip now).1 = true) :
    (find_login_user db email = none →
      login db email password ip ua now salt rid =
        (record_login_attempt db email ip false none ua now,
         .error "INVALID_CREDENTIALS"))
    ∧ (∀ u, find_login_user db email = some u →
        verify_password password u.hashed_password = false →
        login db email password ip ua now salt rid =
          (record_login_attempt db email ip false none ua now,
           .error "INVALID_CREDENTIALS")) := by
  constructor
  · intro hfind
    unfold login
    rw [hallow, hfind]
    simp
  · intro u hfind hpw
    unfold login
    rw [hallow, hfind]
    simp [hpw]

/-- C4 witness: both failure causes evaluated on concrete stores. -/
theorem login_indistinguishable_witness :
    login c4dbA "a@x.com" "Secret12" "1.1.1.1" none 0 0 0 =
      (record_login_attempt c4dbA "a@x.com" "1.1.1.1" false none none 0,
       .error "INVALID_CREDENTIALS")
    ∧ login c4dbB "a@x.com" "Wrong1234" "1.1.1.1" none 0 0 0 =
      (record_login_attempt c4dbB "a@x.com" "1.1.1.1" false none none 0,
       .error "INVALID_CREDENTIALS") :=
  ⟨(login_wrong_password_and_no_user_indistinguishable c4dbA "a@x.com" "Secret12"
      "1.1.1.1" none 0 0 0 (by decide)).1 (by decide),
   (login_wrong_password_and_no_user_indistinguishable c4dbB "a@x.com" "Wrong1234"
      "1.1.1.1" none 0 0 0 (by decide)).2 aliceUser (by decide) (by decide)⟩

/-! C8 — the login identifier is matched against the email column only. -/

/-- C8 counterexample: `aliceUser` is active, non-deleted, has username
"alice" and the correct password, yet a login presenting the username as
identifier fails with `INVALID_CREDENTIALS` (the lookup matches only the
email column). -/
theorem login_with_username_fails_counterexample :
    (login c4dbB "alice" "Secret12" "1.1.1.1" none 0 0 0).2 =
        .error "INVALID_CREDENTIALS"
    ∧ aliceUser ∈ c4dbB.users ∧ aliceUser.username = "alice"
    ∧ aliceUser.is_active = true ∧ aliceUser.deleted_at = none
    ∧ verify_password "Secret12" aliceUser.hashed_password = true := by
  refine ⟨rfl, by decide, rfl, rfl, rfl, rfl⟩

/-- C8 (amended): login matches the identifier only against `User.email`
among non-deleted users; whenever no non-deleted user carries the
identifier as email — in particular when a username is presented — the
call fails with `INVALID_CREDENTIALS` (when not rate-limited), regardless
of the password. -/
theorem login_matches_email_only (db : DB) (ident password ip : String)
    (ua : Option String) (now : Int) (salt rid : Nat)
    (hallow : (check_login_rate_limit db ident ip now).1 = true)
    (hnoemail : ∀ u ∈ db.users, u.deleted_at = none → u.email ≠ ident) :
    (login db ident password ip ua now salt rid).2 = .error "INVALID_CREDENTIALS" := by
  have hfind : find_login_user db ident = none := by
    apply List.find?_eq_none.mpr
    intro u hu
    cases hdel : u.deleted_at with
    | some v => simp [hdel]
    | none => simp [hdel]; exact hnoemail u hu hdel
  unfold login
  rw [hallow, hfind]
  simp

/-- C8 witness: the amended statement evaluated on the concrete store. -/
theorem login_matches_email_only_witness :
    (login c4dbB "alice" "Secret12" "1.1.1.1" none 0 0 0).2 =
      .error "INVALID_CREDENTIALS" :=
  login_matches_email_only c4dbB "alice" "Secret12" "1.1.1.1" none 0 0 0
    (by decide) (by decide)

/-! C7 — which operations require a verified email. -/

/-- C7 counterexample: for an authenticated, active but unverified user
with the correct current password, change-password fails with
`EMAIL_NOT_VERIFIED`, refuting the claim that it succeeds regardless of
verification. -/
theorem change_password_requires_verified_counterexample :
    get_current_user c7db accessTok2 100 = .ok bobUnverified
    ∧ bobUnverified.is_verified = false
    ∧ verify_password "Secret12" bobUnverified.hashed_password = true
    ∧ (change_password c7db accessTok2 "Secret12" "NewSecret34" 100 9).2 =
        .error "EMAIL_NOT_VERIFIED" := by
  refine ⟨rfl, rfl, rfl, rfl⟩

/-- C7 (amended): logout requires only an authenticated, active user and
succeeds for an unverified one, while change-password, profile update and
account deletion all additionally require a verified email and fail with
`EMAIL_NOT_VERIFIED` when `is_verified` is false. -/
theorem verified_email_tiers (db : DB) (tok : Token) (now : Int) (u : UserRec)
    (hu : get_current_user db tok now = .ok u)
    (hnv : u.is_verified = false) :
    (logout db tok now).2 = .ok ()
    ∧ (∀ current new salt,
        (change_password db tok current new now salt).2 = .error "EMAIL_NOT_VERIFIED")
    ∧ (∀ upd, (update_current_user db tok upd now).2 = .error "EMAIL_NOT_VERIFIED")
    ∧ (delete_current_user db tok now).2 = .error "EMAIL_NOT_VERIFIED" := by
  have hfail : get_current_verified_user db tok now = .error "EMAIL_NOT_VERIFIED" := by
    rw [get_current_verified_user_eq db tok now u hu, hnv]
    simp
  refine ⟨?_, ?_, ?_, ?_⟩
  · unfold logout; rw [hu]
  · intro current new salt; unfold change_password; rw [hfail]
  · intro upd; unfold update_current_user; rw [hfail]
  · unfold delete_current_user; rw [hfail]

/-- C7 witness: the tiers evaluated for the concrete unverified user. -/
theorem verified_email_tiers_witness :
    (logout c7db accessTok2 100).2 = .ok ()
    ∧ (change_password c7db accessTok2 "Secret12" "NewSecret34" 100 9).2 =
        .error "EMAIL_NOT_VERIFIED"
    ∧ (update_current_user c7db accessTok2 ⟨some "z@x.com", none⟩ 100).2 =
        .error "EMAIL_NOT_VERIFIED"
    ∧ (delete_current_user c7db accessTok2 100).2 = .error "EMAIL_NOT_VERIFIED" :=
  ⟨(verified_email_tiers c7db accessTok2 100 bobUnverified rfl rfl).1,
   (verified_email_tiers c7db accessTok2 100 bobUnverified rfl rfl).2.1
     "Secret12" "NewSecret34" 9,
   (verified_email_tiers c7db accessTok2 100 bobUnverified rfl rfl).2.2.1
     ⟨some "z@x.com", none⟩,
   (verified_email_tiers c7db accessTok2 100 bobUnverified rfl rfl).2.2.2⟩

/-! C3 and C1 — refresh failures and revocation permanence. -/

/-- When every ledger row the raw token verifies against is revoked, the
refresh endpoint answers `INVALID_REFRESH_TOKEN` whatever else the store
holds. -/
theorem refresh_error_of_match_revoked (db : DB) (raw : Token) (now : Int)
    (h : MatchRevoked raw db) :
    refresh_endpoint db raw now = .error "INVALID_REFRESH_TOKEN" := by
  unfold refresh_endpoint
  split
  · rfl
  · rename_i c hdec
    have hfind : (user_tokens_unrevoked db c.sub).find?
        (fun rt => verify_token raw rt.token_hash) = none := by
      apply List.find?_eq_none.mpr
      intro rt hrt
      unfold user_tokens_unrevoked at hrt
      obtain ⟨hmem, hcond⟩ := List.mem_filter.mp hrt
      have hnone : rt.revoked_at.isNone = true := (Bool.and_eq_true_iff.mp hcond).2
      intro hver
      have hsome := h rt hmem hver
      rw [Option.isNone_iff_eq_none.mp hnone] at hsome
      simp at hsome
    by_cases h1 : (c.ty != "refresh") = true
    · simp [h1]
    · by_cases h2 : (c.sub == "") = true
      · simp [h1, h2]
      · simp [h1, h2, hfind]

/-- C3: refresh with a syntactically invalid token (undecodable), with a
decodable token of the wrong type, with a token whose matched ledger row
is expired, and with a token all of whose matching ledger rows are revoked
all answer the same `INVALID_REFRESH_TOKEN`. -/
theorem refresh_failure_codes_indistinguishable (db : DB) (raw : Token) (now : Int) :
    (decode_token SECRET_KEY now raw = none →
      refresh_endpoint db raw now = .error "INVALID_REFRESH_TOKEN")
    ∧ (∀ c, decode_token SECRET_KEY now raw = some c → c.ty ≠ "refresh" →
      refresh_endpoint db raw now = .error "INVALID_REFRESH_TOKEN")
    ∧ (∀ c rt, decode_token SECRET_KEY now raw = some c →
      (user_tokens_unrevoked db c.sub).find?
        (fun t => verify_token raw t.token_hash) = some rt →
      rt.is_expired now = true →
      refresh_endpoint db raw now = .error "INVALID_REFRESH_TOKEN")
    ∧ (MatchRevoked raw db →
      refresh_endpoint db raw now = .error "INVALID_REFRESH_TOKEN") := by
  refine ⟨?_, ?_, ?_, refresh_error_of_match_revoked db raw now⟩
  · intro h
    unfold refresh_endpoint
    rw [h]
  · intro c hdec hty
    have h1 : (c.ty != "refresh") = true := by simp [bne_iff_ne]; exact hty
    unfold refresh_endpoint
    rw [hdec]
    simp [h1]
  · intro c rt hdec hfind hexp
    have hval : rt.is_valid now = false := by
      unfold RefreshTokenRec.is_valid
      rw [hexp]
      rfl
    unfold refresh_endpoint
    rw [hdec]
    by_cases h1 : (c.ty != "refresh") = true
    · simp [h1]
    · by_cases h2 : (c.sub == "") = true
      · simp [h1, h2]
      · simp [h1, h2, hfind, hval]

/-- A store whose only ledger row for `rawTok1` expired at time 50. -/
def c3dbExp : DB := ⟨[aliceUser], [⟨3, "u1", hash_token rawTok1 5, 50, none⟩], []⟩

/-- C3 witness: the four failure causes evaluated on concrete stores. -/
theorem refresh_failure_codes_witness :
    refresh_endpoint c1db (Token.malformed "xx") 100 = .error "INVALID_REFRESH_TOKEN"
    ∧ refresh_endpoint c1db accessTok1 100 = .error "INVALID_REFRESH_TOKEN"
    ∧ refresh_endpoint c3dbExp rawTok1 100 = .error "INVALID_REFRESH_TOKEN"
    ∧ refresh_endpoint c1db rawTok1 100 = .error "INVALID_REFRESH_TOKEN" :=
  ⟨(refresh_failure_codes_indistinguishable c1db (Token.malformed "xx") 100).1 (by decide),
   (refresh_failure_codes_indistinguishable c1db accessTok1 100).2.1
     ⟨"u1", "access", 0, 900⟩ (by decide) (by decide),
   (refresh_failure_codes_indistinguishable c3dbExp rawTok1 100).2.2.1
     ⟨"u1", "refresh", 0, 2592000⟩ ⟨3, "u1", hash_token rawTok1 5, 50, none⟩
     (by decide) (by decide) (by decide),
   (refresh_failure_codes_indistinguishable c1db rawTok1 100).2.2.2 (by decide)⟩

/-- A ledger row that is already revoked survives any operation unchanged:
no operation clears `revoked_at`. -/
theorem revoked_mem_applyOp (db : DB) (op : Op) (rt : RefreshTokenRec)
    (hmem : rt ∈ db.refresh_tokens) (hrev : rt.revoked_at.isSome = true) :
    rt ∈ (applyOp db op).refresh_tokens := by
  have hrtne : rt.revoked_at.isNone = false := by
    cases h : rt.revoked_at with
    | none => rw [h] at hrev; simp at hrev
    | some v => simp
  cases op with
  | opLogin e p ip ua now salt rid =>
    simp only [applyOp]
    unfold login
    split
    · exact hmem
    · split
      · exact hmem
      · split
        · exact hmem
        · split
          · exact hmem
          · dsimp only
            exact List.mem_cons_of_mem _ hmem
  | opLogout tok now =>
    simp only [applyOp]
    unfold logout
    split
    · exact hmem
    · unfold revoke_user_tokens
      dsimp only
      refine List.mem_map.mpr ⟨rt, hmem, ?_⟩
      simp [hrtne]
  | opDelete tok now =>
    simp only [applyOp]
    unfold delete_current_user
    split
    · exact hmem
    · unfold revoke_user_tokens
      dsimp only
      refine List.mem_map.mpr ⟨rt, hmem, ?_⟩
      simp [hrtne]
  | opChangePassword tok c n now salt =>
    simp only [applyOp]
    unfold change_password
    split
    · exact hmem
    · split
      · exact hmem
      · split
        · exact hmem
        · exact hmem
  | opUpdate tok upd now =>
    simp only [applyOp]
    unfold update_current_user
    split
    · exact hmem
    · dsimp only
      split
      · exact hmem
      · split
        · exact hmem
        · split
          · exact hmem
          · exact hmem
  | opRegister e un p now salt uid =>
    simp only [applyOp]
    unfold register
    split
    · exact hmem
    · split
      · exact hmem
      · exact hmem

/-- `MatchRevoked` is preserved by a step that adds no ledger row matching
the raw token. -/
theorem MatchRevoked_applyOp (raw : Token) (db : DB) (op : Op)
    (h : MatchRevoked raw db)
    (hstep : (applyOp db op).refresh_tokens.all (fun rt =>
        decide (rt ∈ db.refresh_tokens) || !(verify_token raw rt.token_hash)) = true) :
    MatchRevoked raw (applyOp db op) := by
  intro rt hrt hver
  have hor := List.all_eq_true.mp hstep rt hrt
  rcases Bool.or_eq_true_iff.mp hor with hin | hnv
  · exact h rt (of_decide_eq_true hin) hver
  · rw [hver] at hnv
    simp at hnv

/-- Along any trace that re-issues no token matching `raw`, all matching
ledger rows stay revoked and already-revoked rows persist unchanged. -/
theorem matchRevoked_trace (raw : Token) : ∀ (ops : List Op) (db : DB),
    MatchRevoked raw db → no_matching_issue raw db ops = true →
    MatchRevoked raw (applyOps db ops)
    ∧ ∀ rt ∈ db.refresh_tokens, rt.revoked_at.isSome = true →
        rt ∈ (applyOps db ops).refresh_tokens := by
  intro ops
  induction ops with
  | nil => intro db h _; exact ⟨h, fun rt hm _ => hm⟩
  | cons op ops ih =>
    intro db h hfresh
    rw [no_matching_issue] at hfresh
    obtain ⟨hstep, hrest⟩ := Bool.and_eq_true_iff.mp hfresh
    have h1 := MatchRevoked_applyOp raw db op h hstep
    have hih := ih (applyOp db op) h1 hrest
    refine ⟨hih.1, ?_⟩
    intro rt hm hv
    exact hih.2 rt (revoked_mem_applyOp db op rt hm hv) hv

/-- C1: once every ledger row matching a raw refresh token is revoked, it
stays so along any trace of operations that does not re-issue that raw
token; the revoked rows themselves persist with `revoked_at` still set,
and a refresh presenting the raw token fails with
`INVALID_REFRESH_TOKEN` in every reachable store. -/
theorem revoked_refresh_token_never_refreshes_again (db : DB) (ops : List Op)
    (raw : Token) (now : Int)
    (h : MatchRevoked raw db)
    (hfresh : no_matching_issue raw db ops = true) :
    MatchRevoked raw (applyOps db ops)
    ∧ (∀ rt ∈ db.refresh_tokens, rt.revoked_at.isSome = true →
        rt ∈ (applyOps db ops).refresh_tokens)
    ∧ refresh_endpoint (applyOps db ops) raw now = .error "INVALID_REFRESH_TOKEN" := by
  obtain ⟨h1, h2⟩ := matchRevoked_trace raw ops db h hfresh
  exact ⟨h1, h2, refresh_error_of_match_revoked _ raw now h1⟩

/-- C1 witness: on the concrete store with a revoked row for `rawTok1`,
after a logout step the row is still present (revoked) and refresh with
`rawTok1` fails. -/
theorem revoked_refresh_token_witness :
    refresh_endpoint (applyOps c1db c1ops) rawTok1 100 = .error "INVALID_REFRESH_TOKEN"
    ∧ revokedRec1 ∈ (applyOps c1db c1ops).refresh_tokens :=
  ⟨(revoked_refresh_token_never_refreshes_again c1db c1ops rawTok1 100
      (by decide) (by decide)).2.2,
   (revoked_refresh_token_never_refreshes_again c1db c1ops rawTok1 100
      (by decide) (by decide)).2.1 revokedRec1 (by decide) (by decide)⟩

/-! C2 — the rate-limit check. -/

/-- The fold computing the oldest attempt never answers `none` on a
non-empty list. -/
theorem oldest_attempt_time_ne_none (a : LoginAttemptRec) (rest : List LoginAttemptRec) :
    oldest_attempt_time (a :: rest) ≠ none := by
  unfold oldest_attempt_time
  cases oldest_attempt_time rest <;> simp

/-- The fold computing the oldest attempt returns the minimal
`attempted_at` of the list. -/
theorem oldest_attempt_time_min (l : List LoginAttemptRec) (t : Int)
    (h : oldest_attempt_time l = some t) :
    t ∈ l.map (fun a => a.attempted_at)
    ∧ ∀ s ∈ l.map (fun a => a.attempted_at), t ≤ s := by
  induction l generalizing t with
  | nil => simp [oldest_attempt_time] at h
  | cons a rest ih =>
    cases hr : oldest_attempt_time rest with
    | none =>
      rw [oldest_attempt_time, hr] at h
      cases rest with
      | nil =>
        simp at h
        subst h
        simp
      | cons b rest2 => exact absurd hr (oldest_attempt_time_ne_none b rest2)
    | some t2 =>
      rw [oldest_attempt_time, hr] at h
      simp at h
      obtain ⟨hmem2, hmin2⟩ := ih t2 hr
      constructor
      · rcases le_total a.attempted_at t2 with hle | hle
        · rw [← h, min_eq_left hle, List.map_cons]
          exact List.mem_cons_self _ _
        · rw [← h, min_eq_right hle, List.map_cons]
          exact List.mem_cons_of_mem _ hmem2
      · intro s hs
        rw [List.map_cons] at hs
        rcases List.mem_cons.mp hs with hsa | hsr
        · rw [← h, hsa]
          exact min_le_left _ _
        · exact le_trans (h ▸ min_le_right a.attempted_at t2) (hmin2 s hsr)

/-- C2: the check counts the failed attempts for the (email, ip) pair
inside the trailing window; strictly below the threshold it allows with
`remaining = threshold - count`, at or above it denies with remaining 0
and `retry_after` equal to the oldest in-window failed attempt plus the
window; the threshold is three times the per-minute limit, 15 by default,
and the window is 15 minutes. -/
theorem check_login_rate_limit_spec (db : DB) (email ip : String) (now : Int) :
    ((failed_attempts_in_window db email ip now).length < max_attempts →
      check_login_rate_limit db email ip now =
        (true, max_attempts - (failed_attempts_in_window db email ip now).length, none))
    ∧ (max_attempts ≤ (failed_attempts_in_window db email ip now).length →
      ∃ t, t ∈ (failed_attempts_in_window db email ip now).map (fun a => a.attempted_at)
        ∧ (∀ s ∈ (failed_attempts_in_window db email ip now).map (fun a => a.attempted_at),
            t ≤ s)
        ∧ check_login_rate_limit db email ip now =
            (false, 0, some (t + window_minutes * 60)))
    ∧ max_attempts = LOGIN_RATE_LIMIT_PER_MINUTE * 3
    ∧ max_attempts = 15 ∧ window_minutes = 15 := by
  refine ⟨?_, ?_, rfl, rfl, rfl⟩
  · intro hlt
    have hneg : ¬ ((failed_attempts_in_window db email ip now).length ≥ max_attempts) := by
      omega
    unfold check_login_rate_limit
    rw [if_neg hneg]
  · intro hge
    cases hl : failed_attempts_in_window db email ip now with
    | nil =>
      rw [hl] at hge
      simp [max_attempts, LOGIN_RATE_LIMIT_PER_MINUTE] at hge
    | cons a rest =>
      cases ho : oldest_attempt_time (a :: rest) with
      | none => exact absurd ho (oldest_attempt_time_ne_none a rest)
      | some t =>
        obtain ⟨hmem, hmin⟩ := oldest_attempt_time_min (a :: rest) t ho
        refine ⟨t, hmem, hmin, ?_⟩
        unfold check_login_rate_limit
        rw [hl] at hge
        rw [hl]
        dsimp only
        rw [if_pos hge, ho]

/-- C2 witness: the deny branch on a store at the threshold and the allow
branch on a store with one failed attempt. -/
theorem check_login_rate_limit_witness :
    (∃ t, t ∈ (failed_attempts_in_window c2dbDeny "b@x.com" "1.2.3.4" 1000).map
            (fun a => a.attempted_at)
      ∧ (∀ s ∈ (failed_attempts_in_window c2dbDeny "b@x.com" "1.2.3.4" 1000).map
            (fun a => a.attempted_at), t ≤ s)
      ∧ check_login_rate_limit c2dbDeny "b@x.com" "1.2.3.4" 1000 =
          (false, 0, some (t + window_minutes * 60)))
    ∧ check_login_rate_limit c2dbAllow "b@x.com" "1.2.3.4" 1000 =
        (true, max_attempts -
          (failed_attempts_in_window c2dbAllow "b@x.com" "1.2.3.4" 1000).length, none) :=
  ⟨(check_login_rate_limit_spec c2dbDeny "b@x.com" "1.2.3.4" 1000).2.1 (by decide),
   (check_login_rate_limit_spec c2dbAllow "b@x.com" "1.2.3.4" 1000).1 (by decide)⟩

/-! C6 — change-password leaves the refresh-token ledger untouched. -/

/-- The refresh endpoint is insensitive to a rewrite of the user table
that preserves id, activity and deletion state (such as a password
rehash). -/
theorem refresh_endpoint_users_congr (dbA dbB : DB) (g : UserRec → UserRec)
    (htok : dbB.refresh_tokens = dbA.refresh_tokens)
    (husers : dbB.users = dbA.users.map g)
    (hid : ∀ u, (g u).id = u.id)
    (hact : ∀ u, (g u).is_active = u.is_active)
    (hdel : ∀ u, (g u).deleted_at = u.deleted_at)
    (raw : Token) (now : Int) :
    refresh_endpoint dbB raw now = refresh_endpoint dbA raw now := by
  unfold refresh_endpoint user_tokens_unrevoked
  rw [htok, husers]
  split
  · rfl
  · rename_i c hdec
    by_cases h1 : (c.ty != "refresh") = true
    · simp [h1]
    · by_cases h2 : (c.sub == "") = true
      · simp [h1, h2]
      · have hcomp : ((fun u : UserRec => u.id == c.sub && u.deleted_at.isNone) ∘ g)
            = (fun u : UserRec => u.id == c.sub && u.deleted_at.isNone) := by
          funext u
          simp [Function.comp, hid u, hdel u]
        have hfm : (dbA.users.map g).find?
              (fun u => u.id == c.sub && u.deleted_at.isNone)
            = (dbA.users.find? (fun u => u.id == c.sub && u.deleted_at.isNone)).map g := by
          rw [List.find?_map, hcomp]
        cases hf : dbA.users.find? (fun u => u.id == c.sub && u.deleted_at.isNone) with
        | none => simp [h1, h2, hfm, hf]
        | some u => simp [h1, h2, hfm, hf, hact u, hid u]

/-- C6: a successful change-password leaves every refresh-token row
unchanged — in particular it revokes nothing — and the refresh endpoint
behaves identically on the store before and after, so a refresh token
valid before the password change still refreshes afterwards. -/
theorem change_password_preserves_refresh_tokens (db : DB) (tok : Token)
    (current new : String) (now : Int) (salt : Nat)
    (hok : (change_password db tok current new now salt).2 = .ok ()) :
    (change_password db tok current new now salt).1.refresh_tokens = db.refresh_tokens
    ∧ ∀ raw now2,
        refresh_endpoint (change_password db tok current new now salt).1 raw now2 =
          refresh_endpoint db raw now2 := by
  cases hu : get_current_verified_user db tok now with
  | error e => simp [change_password, hu] at hok
  | ok u =>
    cases hv : verify_password current u.hashed_password with
    | false => simp [change_password, hu, hv] at hok
    | true =>
      cases hsame : current == new with
      | true => simp [change_password, hu, hv, hsame] at hok
      | false =>
        have hdb : (change_password db tok current new now salt).1 =
            { db with users := db.users.map (fun w =>
                if w.id == u.id then
                  { w with hashed_password := get_password_hash new salt,
                           updated_at := now }
                else w) } := by
          simp [change_password, hu, hv, hsame]
        rw [hdb]
        refine ⟨rfl, ?_⟩
        intro raw now2
        refine refresh_endpoint_users_congr db _
          (fun w => if w.id == u.id then
            { w with hashed_password := get_password_hash new salt,
                     updated_at := now }
          else w) ?_ ?_ ?_ ?_ ?_ raw now2
        · rfl
        · rfl
        · intro w
          by_cases h : (w.id == u.id) = true <;> simp [h]
        · intro w
          by_cases h : (w.id == u.id) = true <;> simp [h]
        · intro w
          by_cases h : (w.id == u.id) = true <;> simp [h]

/-- C6 witness: the frame property evaluated on the concrete store with a
live refresh token; the refresh outcome at time 200 is unchanged by the
password change. -/
theorem change_password_preserves_witness :
    (change_password c6db accessTok1 "Secret12" "NewSecret34" 100 7).1.refresh_tokens =
      c6db.refresh_tokens
    ∧ refresh_endpoint (change_password c6db accessTok1 "Secret12" "NewSecret34" 100 7).1
        rawTok1 200 = refresh_endpoint c6db rawTok1 200 :=
  ⟨(change_password_preserves_refresh_tokens c6db accessTok1 "Secret12" "NewSecret34"
      100 7 (by rfl)).1,
   (change_password_preserves_refresh_tokens c6db accessTok1 "Secret12" "NewSecret34"
      100 7 (by rfl)).2 rawTok1 200⟩

/-! C9 — consequences of account deletion. -/

/-- C9: after a successful account deletion, the user id no longer
resolves through the non-deleted-user lookup, a login presenting the
user's email fails with `INVALID_CREDENTIALS` (when not rate-limited, and
emails being unique), and every ledger row owned by the user carries a
`revoked_at`. -/
theorem delete_user_disables_login_and_revokes (db : DB) (tok : Token)
    (now : Int) (u : UserRec)
    (hu : get_current_verified_user db tok now = .ok u)
    (hemail : ∀ w ∈ db.users, w.email = u.email → w.id = u.id) :
    get_user_by_id (delete_current_user db tok now).1 u.id = none
    ∧ (∀ password ip ua now2 salt rid,
        (check_login_rate_limit (delete_current_user db tok now).1 u.email ip now2).1
          = true →
        (login (delete_current_user db tok now).1 u.email password ip ua now2 salt rid).2
          = .error "INVALID_CREDENTIALS")
    ∧ (∀ rt ∈ (delete_current_user db tok now).1.refresh_tokens,
        rt.user_id = u.id → rt.revoked_at.isSome = true) := by
  have hdb : (delete_current_user db tok now).1 =
      revoke_user_tokens
        { db with users := db.users.map (fun w =>
            if w.id == u.id then { w with deleted_at := some now, is_active := false }
            else w) } u.id now := by
    simp [delete_current_user, hu]
  refine ⟨?_, ?_, ?_⟩
  · rw [hdb]
    unfold get_user_by_id revoke_user_tokens
    dsimp only
    apply List.find?_eq_none.mpr
    intro x hx
    obtain ⟨w, hw, hfw⟩ := List.mem_map.mp hx
    subst hfw
    by_cases hid : (w.id == u.id) = true
    · simp [hid]
    · have hid' : (w.id == u.id) = false := by simpa using hid
      simp [hid']
  · intro password ip ua now2 salt rid hallow
    rw [hdb] at hallow ⊢
    have hfind : find_login_user
        (revoke_user_tokens
          { db with users := db.users.map (fun w =>
              if w.id == u.id then { w with deleted_at := some now, is_active := false }
              else w) } u.id now) u.email = none := by
      unfold find_login_user revoke_user_tokens
      dsimp only
      apply List.find?_eq_none.mpr
      intro x hx
      obtain ⟨w, hw, hfw⟩ := List.mem_map.mp hx
      subst hfw
      by_cases hid : (w.id == u.id) = true
      · simp [hid]
      · have hid' : (w.id == u.id) = false := by simpa using hid
        by_cases hem : (w.email == u.email) = true
        · have hwid : w.id = u.id := hemail w hw (by simpa using hem)
          rw [hwid] at hid'
          simp at hid'
        · have hem' : (w.email == u.email) = false := by simpa using hem
          simp [hid', hem']
    unfold login
    rw [hallow, hfind]
    simp
  · rw [hdb]
    unfold revoke_user_tokens
    dsimp only
    intro rt hrt
    obtain ⟨rt', hrt', hfw⟩ := List.mem_map.mp hrt
    subst hfw
    by_cases hcond : (rt'.user_id == u.id && rt'.revoked_at.isNone) = true
    · rw [if_pos hcond]
      intro _
      rfl
    · rw [if_neg hcond]
      intro huid
      have hcond' : (rt'.user_id == u.id && rt'.revoked_at.isNone) = false :=
        Bool.eq_false_iff.mpr hcond
      have h1 : (rt'.user_id == u.id) = true := by simp [huid]
      rw [h1, Bool.true_and] at hcond'
      cases hrv : rt'.revoked_at with
      | none => rw [hrv] at hcond'; simp at hcond'
      | some v => rfl

/-- The ledger row for alice after her account deletion at time 100. -/
def c9revoked : RefreshTokenRec := ⟨2, "u1", hash_token rawTok1 4, 2592000, some 100⟩

/-- C9 witness: the three consequences evaluated on the concrete store. -/
theorem delete_user_witness :
    get_user_by_id (delete_current_user c9db accessTok1 100).1 aliceUser.id = none
    ∧ (login (delete_current_user c9db accessTok1 100).1 aliceUser.email "Secret12"
        "1.1.1.1" none 200 0 9).2 = .error "INVALID_CREDENTIALS"
    ∧ c9revoked.revoked_at.isSome = true := by
  have T := delete_user_disables_login_and_revokes c9db accessTok1 100 aliceUser
    rfl (by decide)
  exact ⟨T.1, T.2.1 "Secret12" "1.1.1.1" none 200 0 9 (by decide),
    T.2.2 c9revoked (by decide) (by decide)⟩

/-! C10 — an email change clears the verification flag. -/

/-- The verification flag of the row a successful profile update returns,
as a function of the requested email. -/
theorem update_is_verified_eq (db : DB) (tok : Token) (upd : UserUpdate)
    (now : Int) (u u' : UserRec)
    (hu : get_current_verified_user db tok now = .ok u)
    (hok : (update_current_user db tok upd now).2 = .ok u') :
    u'.is_verified = (match upd.email with
      | some e => if e != u.email then false else u.is_verified
      | none => u.is_verified) := by
  cases he : upd.email with
  | none =>
    cases hn : upd.username with
    | none =>
      simp [update_current_user, hu, he, hn] at hok
      subst hok
      rfl
    | some s =>
      by_cases hc :
          (s != u.username && db.users.any (fun w => w.username == s && w.id != u.id))
            = true
      · simp [update_current_user, hu, he, hn, hc] at hok
      · have hc' :
            (s != u.username && db.users.any (fun w => w.username == s && w.id != u.id))
              = false := by simpa using hc
        simp [update_current_user, hu, he, hn, hc'] at hok
        subst hok
        rfl
  | some e =>
    by_cases hec :
        (e != u.email && db.users.any (fun w => w.email == e && w.id != u.id)) = true
    · simp [update_current_user, hu, he, hec] at hok
    · have hec' :
          (e != u.email && db.users.any (fun w => w.email == e && w.id != u.id))
            = false := by simpa using hec
      cases hn : upd.username with
      | none =>
        simp [update_current_user, hu, he, hn, hec'] at hok
        subst hok
        by_cases hch : e = u.email <;> simp [hch]
      | some s =>
        by_cases hc :
            (s != u.username && db.users.any (fun w => w.username == s && w.id != u.id))
              = true
        · simp [update_current_user, hu, he, hn, hec', hc] at hok
        · have hc' :
              (s != u.username && db.users.any (fun w => w.username == s && w.id != u.id))
                = false := by simpa using hc
          simp [update_current_user, hu, he, hn, hec', hc'] at hok
          subst hok
          by_cases hch : e = u.email <;> simp [hch]

/-- C10: a successful profile update that supplies an email different from
the current one returns a row with `is_verified` false; an update that
supplies no email, or the unchanged email, leaves `is_verified` as it
was. -/
theorem email_change_clears_is_verified (db : DB) (tok : Token) (upd : UserUpdate)
    (now : Int) (u u' : UserRec)
    (hu : get_current_verified_user db tok now = .ok u)
    (hok : (update_current_user db tok upd now).2 = .ok u') :
    ((∃ e, upd.email = some e ∧ e ≠ u.email) → u'.is_verified = false)
    ∧ ((upd.email = none ∨ upd.email = some u.email) →
        u'.is_verified = u.is_verified) := by
  have hv := update_is_verified_eq db tok upd now u u' hu hok
  constructor
  · rintro ⟨e, hee, hne⟩
    rw [hee] at hv
    rw [hv]
    simp [hne]
  · rintro (hee | hee) <;> rw [hee] at hv <;> simp [hv]

/-- C10 witness: on the concrete store, the email-changing update returns
the row with `is_verified` cleared, the username-only update keeps it. -/
theorem email_change_clears_is_verified_witness :
    c10afterEmail.is_verified = false
    ∧ c10afterName.is_verified = aliceUser.is_verified :=
  ⟨(email_change_clears_is_verified c10db accessTok1 c10updEmail 100 aliceUser
      c10afterEmail rfl rfl).1 ⟨"new@x.com", rfl, by decide⟩,
   (email_change_clears_is_verified c10db accessTok1 c10updName 100 aliceUser
      c10afterName rfl rfl).2 (Or.inl rfl)⟩

end FullStack
